import Mathlib

/-
Verification of the HPX iostreams ostream facade
(src/components/iostreams/include/hpx/components/iostreams/ostream.hpp).

The ostream is modelled as a state holding the local byte buffer
(detail::buffer) and the atomic generation counter (generational_count_).
Each operation of the facade is embedded as a function from states to a
result state together with the sequential trace of observable events it
performs: lock acquisition/release, buffer append, buffer detach,
reading the generation counter, and the remote send operations
(fire-and-forget hpx::apply of write_async_action, and the blocking
hpx::async of write_sync_action followed by .get()).

Remote sends may fail; the blocking .get() surfaces such a failure to the
caller (modelled by the SendOutcome parameter and the result field), while
the fire-and-forget path never does.
-/

namespace HpxOstream

/-- Bytes held by the local buffer (characters written to the stream). -/
abbrev Bytes := List Char

/-- Outcome of a blocking remote send: the acknowledgment arrives, or the
transport fails and the blocking call resolves to an error (which the
C++ code surfaces by `.get()` rethrowing). -/
inductive SendOutcome where
  | ack
  | transportError
  deriving Repr, DecidableEq

/-- Observable events of one ostream operation, in program order. -/
inductive Event where
  | lock
  | tryLockAcquired
  | tryLockFailed
  | appendData (s : Bytes)
  | detach (payload : Bytes)
  | unlock
  | genObtained (g : Nat)
  | sendAsync (g : Nat) (payload : Bytes)
  | sendSyncBegin (g : Nat) (payload : Bytes)
  | sendSyncAck
  | sendSyncFailed
  | releaseHandle
  | freeClient
  deriving Repr, DecidableEq

/-- The modulus of the generation counter: `generational_count_` is a
`std::atomic<std::uint64_t>`, so its post-increment wraps modulo 2^64. -/
def uint64Mod : Nat := 2 ^ 64

/-- The mutable state of one ostream object: the detail::buffer contents and
the std::atomic uint64 generational counter (every reachable state holds a
value below `uint64Mod`; the post-increment stores the old value plus one
reduced modulo 2^64 and hands the old value to the send). -/
structure OStream where
  buffer : Bytes
  generational_count_ : Nat
  deriving Repr, DecidableEq

/-- The constructor `ostream()` initializes an empty buffer and
`generational_count_(0)`. -/
def ostream_ctor : OStream :=
  { buffer := [], generational_count_ := 0 }

/-- Modelled from the spec: `detail::buffer::empty_locked` (the buffer class
is not part of the given source) — O(1) emptiness check, caller holds the
lock. -/
def empty_locked (st : OStream) : Bool :=
  st.buffer.isEmpty

/-- Modelled from the spec: `detail::buffer::init_locked` (the buffer class
is not part of the given source) — detach-and-reset: returns the current
contents as the previous buffer and installs a fresh empty buffer. -/
def init_locked (st : OStream) : Bytes × OStream :=
  (st.buffer, { st with buffer := [] })

/-- Modelled from the spec: appending to the local buffering layer
(`detail::buffer::write`, reached by streaming a subject into the local
stream) — appends under the lock, never fails. -/
def buffer_write (st : OStream) (s : Bytes) : OStream :=
  { st with buffer := st.buffer ++ s }

/-- Modelled from the spec: the blocking flush manipulator has no textual
effect on the buffer. -/
def flush_effect : Bytes := []

/-- Modelled from the spec: the blocking endl manipulator appends an
end-of-line before flushing. -/
def endl_effect : Bytes := ['\n']

/-- Modelled from the spec: the non-blocking async_flush manipulator has no
textual effect on the buffer. -/
def async_flush_effect : Bytes := []

/-- Modelled from the spec: the non-blocking async_endl manipulator appends
an end-of-line before flushing. -/
def async_endl_effect : Bytes := ['\n']

/-- Result of one of the private streaming operators: the state after the
operation, the events it performed, whether the caller's unique_lock still
owns the mutex on return, and the outcome propagated to the caller. -/
structure StreamOpResult where
  state : OStream
  events : List Event
  ownsLock : Bool
  result : SendOutcome
  deriving Repr, DecidableEq

/-- `streaming_operator_lazy`: applies the subject (its textual effect `e`)
to the local stream; nothing else. The lock stays owned by the caller. -/
def streaming_operator_lazy (e : Bytes) (st : OStream) : StreamOpResult :=
  { state := buffer_write st e
    events := [Event.appendData e]
    ownsLock := true
    result := SendOutcome.ack }

/-- `streaming_operator_async`: applies the subject to the local stream;
if the buffer is non-empty, detaches it (`init_locked`), unlocks the mutex,
and only then evaluates `generational_count_++` while initiating the
fire-and-forget `hpx::apply<write_async_action>`. If the buffer is empty no
send happens and the lock stays owned. -/
def streaming_operator_async (e : Bytes) (st : OStream) : StreamOpResult :=
  let st1 := buffer_write st e
  if empty_locked st1 then
    { state := st1
      events := [Event.appendData e]
      ownsLock := true
      result := SendOutcome.ack }
  else
    let pr := init_locked st1
    let g := pr.2.generational_count_
    { state := { pr.2 with generational_count_ := (g + 1) % uint64Mod }
      events := [Event.appendData e, Event.detach pr.1, Event.unlock,
                 Event.genObtained g, Event.sendAsync g pr.1]
      ownsLock := false
      result := SendOutcome.ack }

/-- `streaming_operator_sync`: applies the subject to the local stream;
unconditionally detaches the buffer (even if empty), unlocks the mutex,
evaluates `generational_count_++`, then performs the blocking
`hpx::async<write_sync_action>(...).get()`, which resolves either to the
acknowledgment or to a surfaced transport failure. -/
def streaming_operator_sync (e : Bytes) (outcome : SendOutcome)
    (st : OStream) : StreamOpResult :=
  let st1 := buffer_write st e
  let pr := init_locked st1
  let g := pr.2.generational_count_
  { state := { pr.2 with generational_count_ := (g + 1) % uint64Mod }
    events := [Event.appendData e, Event.detach pr.1, Event.unlock,
               Event.genObtained g, Event.sendSyncBegin g pr.1] ++
      (match outcome with
        | SendOutcome.ack => [Event.sendSyncAck]
        | SendOutcome.transportError => [Event.sendSyncFailed])
    ownsLock := false
    result := outcome }

/-- Result of one public operation on the ostream. -/
structure OpResult where
  state : OStream
  trace : List Event
  result : SendOutcome
  deriving Repr, DecidableEq

/-- The public operators acquire the unique_lock on entry; on exit the
unique_lock destructor releases the mutex exactly when it is still owned. -/
def wrapLocked (r : StreamOpResult) : OpResult :=
  { state := r.state
    trace := Event.lock :: (r.events ++ if r.ownsLock then [Event.unlock] else [])
    result := r.result }

/-- `operator<<(flush_type)`: lock, then `streaming_operator_sync`. -/
def op_insert_flush (outcome : SendOutcome) (st : OStream) : OpResult :=
  wrapLocked (streaming_operator_sync flush_effect outcome st)

/-- `operator<<(endl_type)`: lock, then `streaming_operator_sync`. -/
def op_insert_endl (outcome : SendOutcome) (st : OStream) : OpResult :=
  wrapLocked (streaming_operator_sync endl_effect outcome st)

/-- `operator<<(async_flush_type)`: lock, then `streaming_operator_async`. -/
def op_insert_async_flush (st : OStream) : OpResult :=
  wrapLocked (streaming_operator_async async_flush_effect st)

/-- `operator<<(async_endl_type)`: lock, then `streaming_operator_async`. -/
def op_insert_async_endl (st : OStream) : OpResult :=
  wrapLocked (streaming_operator_async async_endl_effect st)

/-- The generic `operator<<(T const&)`: lock_guard, then
`streaming_operator_lazy` with the textual effect `s` of the value. -/
def op_insert_value (s : Bytes) (st : OStream) : OpResult :=
  wrapLocked (streaming_operator_lazy s st)

/-- `ostream::flush()` (reached from `buffer_sink::flush`): lock; if the
buffer is non-empty, detach it, unlock, and initiate the fire-and-forget
send with `generational_count_++` (the lock-checking exemption
`ignore_while_checking` has no observable effect here); always returns
true to the sink. -/
def ostream_flush (st : OStream) : OpResult :=
  if empty_locked st then
    { state := st
      trace := [Event.lock, Event.unlock]
      result := SendOutcome.ack }
  else
    let pr := init_locked st
    let g := pr.2.generational_count_
    { state := { pr.2 with generational_count_ := (g + 1) % uint64Mod }
      trace := [Event.lock, Event.detach pr.1, Event.unlock,
                Event.genObtained g, Event.sendAsync g pr.1]
      result := SendOutcome.ack }

/-- `buffer_sink::flush()` forwards to `ostream::flush()`. -/
def buffer_sink_flush (st : OStream) : OpResult :=
  ostream_flush st

/-- `operator<<(std_stream_type& (*)(std_stream_type&))`: lock (with the
deadlock-detection exemption), then apply the manipulator function to the
local stream via `streaming_operator_lazy`. The manipulator itself is an
arbitrary action on the local buffering layer — it may append data and may
re-enter the flush logic — so it is embedded as a function from states to
a state and the events the manipulator itself performs. -/
def op_insert_manip (f : OStream → OStream × List Event) (st : OStream) :
    OpResult :=
  { state := (f st).1
    trace := Event.lock :: ((f st).2 ++ [Event.unlock])
    result := SendOutcome.ack }

/-- A non-flushing standard manipulator streamed through the pass-through
overload: under the (exemption-marked) outer lock it only applies its
textual effect `s` to the local buffering layer. -/
def op_insert_manip_data (s : Bytes) (st : OStream) : OpResult :=
  op_insert_manip (fun st1 => (buffer_write st1 s, [Event.appendData s])) st

/-- `std::flush` streamed through the pass-through overload: while the
outer `operator<<` at line 336 still holds the recursive mutex, flushing
the boost stream calls `buffer_sink::flush`, which re-enters
`ostream::flush`; the inner flush takes and releases its own hold of the
recursive mutex (this is what the `ignore_while_checking` exemption is
for), but the outer hold persists across the `hpx::apply` it issues. -/
def op_insert_std_flush (st : OStream) : OpResult :=
  op_insert_manip
    (fun st1 => ((buffer_sink_flush st1).state, (buffer_sink_flush st1).trace))
    st

/-- `uninitialize`: try to acquire the lock without blocking; if acquired,
runs `streaming_operator_sync(hpx::async_flush, l)` (which unlocks); a
transport failure there propagates out of uninitialize (the `.get()`
rethrows), skipping the rest; otherwise `release_ostream` and
`base_type::free()` run. If the try_lock fails, no flush happens and
release/free run directly. -/
def uninitialize (lockAcquired : Bool) (outcome : SendOutcome)
    (st : OStream) : OpResult :=
  if lockAcquired then
    let r := streaming_operator_sync async_flush_effect outcome st
    match r.result with
    | SendOutcome.ack =>
      { state := r.state
        trace := Event.tryLockAcquired ::
          (r.events ++ [Event.releaseHandle, Event.freeClient])
        result := SendOutcome.ack }
    | SendOutcome.transportError =>
      { state := r.state
        trace := Event.tryLockAcquired :: r.events
        result := SendOutcome.transportError }
  else
    { state := st
      trace := [Event.tryLockFailed, Event.releaseHandle, Event.freeClient]
      result := SendOutcome.ack }

/-- One write operation issued by the single client thread, including the
two manipulator pass-through instances (a data-only std manipulator, and
std::flush which re-enters the buffer_sink-triggered flush). -/
inductive Op where
  | insertValue (s : Bytes)
  | insertFlush (outcome : SendOutcome)
  | insertEndl (outcome : SendOutcome)
  | insertAsyncFlush
  | insertAsyncEndl
  | sinkFlush
  | insertManipData (s : Bytes)
  | insertStdFlush
  deriving Repr, DecidableEq

/-- Dispatch of one operation on the current state. -/
def runOp : Op → OStream → OpResult
  | Op.insertValue s, st => op_insert_value s st
  | Op.insertFlush outcome, st => op_insert_flush outcome st
  | Op.insertEndl outcome, st => op_insert_endl outcome st
  | Op.insertAsyncFlush, st => op_insert_async_flush st
  | Op.insertAsyncEndl, st => op_insert_async_endl st
  | Op.sinkFlush, st => buffer_sink_flush st
  | Op.insertManipData s, st => op_insert_manip_data s st
  | Op.insertStdFlush, st => op_insert_std_flush st

/-- Sequential execution of a list of operations from a state, producing the
final state and the concatenated event trace. -/
def run : List Op → OStream → OStream × List Event
  | [], st => (st, [])
  | op :: ops, st =>
    let r := runOp op st
    let rest := run ops r.state
    (rest.1, r.trace ++ rest.2)

/-- The generation number an event hands to a remote send operation, if it
is a send event. -/
def sendGen : Event → Option Nat
  | Event.sendAsync g _ => some g
  | Event.sendSyncBegin g _ => some g
  | _ => none

/-- Whether an event initiates a remote send. -/
def isSendEvent (e : Event) : Bool :=
  (sendGen e).isSome

/-- The generation numbers handed to remote sends, in trace order. -/
def sentGens (tr : List Event) : List Nat :=
  tr.filterMap sendGen

/-- The resolution event the blocking send ends with. -/
def syncResolution : SendOutcome → Event
  | SendOutcome.ack => Event.sendSyncAck
  | SendOutcome.transportError => Event.sendSyncFailed

/-- Lock depth after processing a trace, starting from depth d. -/
def lockDepth : Nat → List Event → Nat
  | d, [] => d
  | d, Event.lock :: tl => lockDepth (d + 1) tl
  | d, Event.tryLockAcquired :: tl => lockDepth (d + 1) tl
  | d, Event.unlock :: tl => lockDepth (d - 1) tl
  | d, _ :: tl => lockDepth d tl

/-- Starting from lock depth d, every send event of the trace happens at
lock depth zero, i.e. only after the mutex has been fully released. -/
def sendsOutsideLock : Nat → List Event → Bool
  | _, [] => true
  | d, Event.lock :: tl => sendsOutsideLock (d + 1) tl
  | d, Event.tryLockAcquired :: tl => sendsOutsideLock (d + 1) tl
  | d, Event.unlock :: tl => sendsOutsideLock (d - 1) tl
  | d, e :: tl =>
    (!isSendEvent e || decide (d = 0)) && sendsOutsideLock d tl

/-- Starting from lock depth d, every send event of the trace happens at
lock depth at most `bound` (the recursive mutex may still be held `bound`
times by enclosing frames when the send is issued). -/
def sendsAtDepthLe (bound : Nat) : Nat → List Event → Bool
  | _, [] => true
  | d, Event.lock :: tl => sendsAtDepthLe bound (d + 1) tl
  | d, Event.tryLockAcquired :: tl => sendsAtDepthLe bound (d + 1) tl
  | d, Event.unlock :: tl => sendsAtDepthLe bound (d - 1) tl
  | d, e :: tl =>
    (!isSendEvent e || decide (d ≤ bound)) && sendsAtDepthLe bound d tl

/-- A sequence of n blocking flushes, each acknowledged: the operation
sequence used to drive the generation counter. -/
def flushOnly (n : Nat) : List Op :=
  List.replicate n (Op.insertFlush SendOutcome.ack)

/-- Whether an event is the reading of the generation counter. -/
def isGenObtained : Event → Bool
  | Event.genObtained _ => true
  | _ => false

/-- Whether an event is the release of the mutex. -/
def isUnlock : Event → Bool
  | Event.unlock => true
  | _ => false

/-- A concrete stream state with one buffered byte, used as the explicit
input of counterexamples. -/
def exampleStream : OStream :=
  { buffer := ['x'], generational_count_ := 0 }

/-- A small concrete operation sequence (a buffered write, an async flush,
an acknowledged sync flush) used by witnesses. -/
def demoOps : List Op :=
  [Op.insertValue ['a'], Op.insertAsyncFlush,
   Op.insertFlush SendOutcome.ack]

example : (op_insert_value ['a'] ostream_ctor).trace =
    [Event.lock, Event.appendData ['a'], Event.unlock] := by decide

example : (op_insert_async_flush exampleStream).trace =
    [Event.lock, Event.appendData [], Event.detach ['x'], Event.unlock,
     Event.genObtained 0, Event.sendAsync 0 ['x']] := by decide

example : (op_insert_flush SendOutcome.ack ostream_ctor).trace =
    [Event.lock, Event.appendData [], Event.detach [], Event.unlock,
     Event.genObtained 0, Event.sendSyncBegin 0 [], Event.sendSyncAck] := by
  decide

/-! Helper lemmas about traces and generation sequences. -/

theorem sentGens_append (a b : List Event) :
    sentGens (a ++ b) = sentGens a ++ sentGens b :=
  List.filterMap_append a b sendGen

theorem lockDepth_append (a b : List Event) (d : Nat) :
    lockDepth d (a ++ b) = lockDepth (lockDepth d a) b := by
  induction a generalizing d with
  | nil => rfl
  | cons e tl ih => cases e <;> simp [lockDepth, ih]

theorem sendsAtDepthLe_append (bound : Nat) (a b : List Event) (d : Nat) :
    sendsAtDepthLe bound d (a ++ b) =
      (sendsAtDepthLe bound d a &&
        sendsAtDepthLe bound (lockDepth d a) b) := by
  induction a generalizing d with
  | nil => simp [sendsAtDepthLe, lockDepth]
  | cons e tl ih =>
    cases e <;>
      simp [sendsAtDepthLe, lockDepth, ih, Bool.and_assoc, isSendEvent,
        sendGen]

theorem runOp_gens (op : Op) (st : OStream)
    (h : st.generational_count_ < uint64Mod) :
    ∃ k, sentGens (runOp op st).trace =
        (List.range k).map
          (fun i => (st.generational_count_ + i) % uint64Mod) ∧
      (runOp op st).state.generational_count_ =
        (st.generational_count_ + k) % uint64Mod ∧
      (runOp op st).state.generational_count_ < uint64Mod := by
  have hm : st.generational_count_ % uint64Mod = st.generational_count_ :=
    Nat.mod_eq_of_lt h
  have hpos : 0 < uint64Mod := Nat.lt_of_le_of_lt (Nat.zero_le _) h
  cases op with
  | insertValue s =>
    refine ⟨0, ?_, ?_, ?_⟩
    · simp [runOp, op_insert_value, wrapLocked, streaming_operator_lazy,
        sentGens, sendGen]
    · simp [runOp, op_insert_value, wrapLocked, streaming_operator_lazy,
        buffer_write, hm]
    · simpa [runOp, op_insert_value, wrapLocked, streaming_operator_lazy,
        buffer_write] using h
  | insertFlush outcome =>
    refine ⟨1, ?_, ?_, ?_⟩
    · cases outcome <;>
        simp [runOp, op_insert_flush, wrapLocked, streaming_operator_sync,
          sentGens, sendGen, init_locked, buffer_write, List.range_succ, hm]
    · cases outcome <;>
        simp [runOp, op_insert_flush, wrapLocked, streaming_operator_sync,
          init_locked, buffer_write]
    · cases outcome <;>
        (simp only [runOp, op_insert_flush, wrapLocked,
          streaming_operator_sync, init_locked, buffer_write]
         exact Nat.mod_lt _ hpos)
  | insertEndl outcome =>
    refine ⟨1, ?_, ?_, ?_⟩
    · cases outcome <;>
        simp [runOp, op_insert_endl, wrapLocked, streaming_operator_sync,
          sentGens, sendGen, init_locked, buffer_write, List.range_succ, hm]
    · cases outcome <;>
        simp [runOp, op_insert_endl, wrapLocked, streaming_operator_sync,
          init_locked, buffer_write]
    · cases outcome <;>
        (simp only [runOp, op_insert_endl, wrapLocked,
          streaming_operator_sync, init_locked, buffer_write]
         exact Nat.mod_lt _ hpos)
  | insertAsyncFlush =>
    simp only [runOp, op_insert_async_flush, wrapLocked,
      streaming_operator_async]
    split
    · exact ⟨0, by simp [sentGens, sendGen], by simp [buffer_write, hm], by
        simpa [buffer_write] using h⟩
    · refine ⟨1, ?_, ?_, ?_⟩
      · simp [sentGens, sendGen, init_locked, buffer_write, List.range_succ,
          hm]
      · simp [init_locked, buffer_write]
      · simp only [init_locked, buffer_write]
        exact Nat.mod_lt _ hpos
  | insertAsyncEndl =>
    simp only [runOp, op_insert_async_endl, wrapLocked,
      streaming_operator_async]
    split
    · exact ⟨0, by simp [sentGens, sendGen], by simp [buffer_write, hm], by
        simpa [buffer_write] using h⟩
    · refine ⟨1, ?_, ?_, ?_⟩
      · simp [sentGens, sendGen, init_locked, buffer_write, List.range_succ,
          hm]
      · simp [init_locked, buffer_write]
      · simp only [init_locked, buffer_write]
        exact Nat.mod_lt _ hpos
  | sinkFlush =>
    simp only [runOp, buffer_sink_flush, ostream_flush]
    split
    · exact ⟨0, by simp [sentGens, sendGen], by simp [hm], by simpa using h⟩
    · refine ⟨1, ?_, ?_, ?_⟩
      · simp [sentGens, sendGen, init_locked, List.range_succ, hm]
      · simp [init_locked]
      · simp only [init_locked]
        exact Nat.mod_lt _ hpos
  | insertManipData s =>
    refine ⟨0, ?_, ?_, ?_⟩
    · simp [runOp, op_insert_manip_data, op_insert_manip, sentGens, sendGen]
    · simp [runOp, op_insert_manip_data, op_insert_manip, buffer_write, hm]
    · simpa [runOp, op_insert_manip_data, op_insert_manip, buffer_write]
        using h
  | insertStdFlush =>
    simp only [runOp, op_insert_std_flush, op_insert_manip,
      buffer_sink_flush, ostream_flush]
    split
    · exact ⟨0, by simp [sentGens, sendGen], by simp [hm], by simpa using h⟩
    · refine ⟨1, ?_, ?_, ?_⟩
      · simp [sentGens, sendGen, init_locked, List.range_succ, hm]
      · simp [init_locked]
      · simp only [init_locked]
        exact Nat.mod_lt _ hpos

theorem run_gens (ops : List Op) (st : OStream)
    (h : st.generational_count_ < uint64Mod) :
    ∃ k, sentGens (run ops st).2 =
        (List.range k).map
          (fun i => (st.generational_count_ + i) % uint64Mod) ∧
      (run ops st).1.generational_count_ =
        (st.generational_count_ + k) % uint64Mod ∧
      (run ops st).1.generational_count_ < uint64Mod := by
  induction ops generalizing st with
  | nil =>
    exact ⟨0, by simp [run, sentGens], by simp [run, Nat.mod_eq_of_lt h], h⟩
  | cons op ops ih =>
    obtain ⟨k1, h1, h2, h3⟩ := runOp_gens op st h
    obtain ⟨k2, h4, h5, h6⟩ := ih (runOp op st).state h3
    refine ⟨k1 + k2, ?_, ?_, h6⟩
    · show sentGens ((runOp op st).trace ++ (run ops (runOp op st).state).2) =
        _
      rw [sentGens_append, h1, h4, h2, List.range_add, List.map_append,
        List.map_map]
      congr 1
      apply List.map_congr_left
      intro i hi
      show ((st.generational_count_ + k1) % uint64Mod + i) % uint64Mod =
        (st.generational_count_ + (k1 + i)) % uint64Mod
      rw [Nat.mod_add_mod, Nat.add_assoc]
    · show (run ops (runOp op st).state).1.generational_count_ = _
      rw [h5, h2, Nat.mod_add_mod, Nat.add_assoc]

theorem runOp_locks (op : Op) (st : OStream) :
    sendsAtDepthLe 1 0 (runOp op st).trace = true ∧
      lockDepth 0 (runOp op st).trace = 0 := by
  cases op with
  | insertValue s =>
    refine ⟨?_, ?_⟩ <;>
      simp [runOp, op_insert_value, wrapLocked, streaming_operator_lazy,
        sendsAtDepthLe, lockDepth, isSendEvent, sendGen]
  | insertFlush outcome =>
    refine ⟨?_, ?_⟩ <;> cases outcome <;>
      simp [runOp, op_insert_flush, wrapLocked, streaming_operator_sync,
        sendsAtDepthLe, lockDepth, isSendEvent, sendGen, init_locked,
        buffer_write]
  | insertEndl outcome =>
    refine ⟨?_, ?_⟩ <;> cases outcome <;>
      simp [runOp, op_insert_endl, wrapLocked, streaming_operator_sync,
        sendsAtDepthLe, lockDepth, isSendEvent, sendGen, init_locked,
        buffer_write]
  | insertAsyncFlush =>
    simp only [runOp, op_insert_async_flush, wrapLocked,
      streaming_operator_async]
    split <;>
      refine ⟨?_, ?_⟩ <;>
        simp [sendsAtDepthLe, lockDepth, isSendEvent, sendGen, init_locked,
          buffer_write]
  | insertAsyncEndl =>
    simp only [runOp, op_insert_async_endl, wrapLocked,
      streaming_operator_async]
    split <;>
      refine ⟨?_, ?_⟩ <;>
        simp [sendsAtDepthLe, lockDepth, isSendEvent, sendGen, init_locked,
          buffer_write]
  | sinkFlush =>
    simp only [runOp, buffer_sink_flush, ostream_flush]
    split <;>
      refine ⟨?_, ?_⟩ <;>
        simp [sendsAtDepthLe, lockDepth, isSendEvent, sendGen, init_locked]
  | insertManipData s =>
    refine ⟨?_, ?_⟩ <;>
      simp [runOp, op_insert_manip_data, op_insert_manip, sendsAtDepthLe,
        lockDepth, isSendEvent, sendGen]
  | insertStdFlush =>
    simp only [runOp, op_insert_std_flush, op_insert_manip,
      buffer_sink_flush, ostream_flush]
    split <;>
      refine ⟨?_, ?_⟩ <;>
        simp [sendsAtDepthLe, lockDepth, isSendEvent, sendGen, init_locked]

theorem run_locks (ops : List Op) (st : OStream) :
    sendsAtDepthLe 1 0 (run ops st).2 = true ∧
      lockDepth 0 (run ops st).2 = 0 := by
  induction ops generalizing st with
  | nil => exact ⟨rfl, rfl⟩
  | cons op ops ih =>
    obtain ⟨h1, h2⟩ := runOp_locks op st
    obtain ⟨h3, h4⟩ := ih (runOp op st).state
    constructor
    · show sendsAtDepthLe 1 0 ((runOp op st).trace ++
        (run ops (runOp op st).state).2) = true
      rw [sendsAtDepthLe_append, h1, h2, h3]; rfl
    · show lockDepth 0 ((runOp op st).trace ++
        (run ops (runOp op st).state).2) = 0
      rw [lockDepth_append, h2, h4]

theorem flushOnly_sends (n : Nat) (st : OStream) :
    (sentGens (run (flushOnly n) st).2).length = n := by
  induction n generalizing st with
  | zero => rfl
  | succ n ih =>
    have hstep : flushOnly (n + 1) =
        Op.insertFlush SendOutcome.ack :: flushOnly n := by
      simp [flushOnly, List.replicate_succ]
    rw [hstep]
    show (sentGens ((runOp (Op.insertFlush SendOutcome.ack) st).trace ++
        (run (flushOnly n)
          (runOp (Op.insertFlush SendOutcome.ack) st).state).2)).length =
      n + 1
    rw [sentGens_append, List.length_append, ih]
    simp [runOp, op_insert_flush, wrapLocked, streaming_operator_sync,
      sentGens, sendGen]
    omega

theorem flushOnly_wrap_gens :
    sentGens (run (flushOnly (uint64Mod + 1)) ostream_ctor).2 =
      (List.range (uint64Mod + 1)).map (fun i => i % uint64Mod) ∧
    (run (flushOnly (uint64Mod + 1)) ostream_ctor).1.generational_count_ =
      1 := by
  have hW : 2 ≤ uint64Mod := Nat.le_self_pow (by omega) 2
  have h1 : ostream_ctor.generational_count_ < uint64Mod := by
    show (0:Nat) < uint64Mod
    omega
  obtain ⟨k, hg, hc, -⟩ := run_gens (flushOnly (uint64Mod + 1)) ostream_ctor
    h1
  have h0 : ostream_ctor.generational_count_ = 0 := rfl
  rw [h0] at hg hc
  have hk : k = uint64Mod + 1 := by
    have hl := flushOnly_sends (uint64Mod + 1) ostream_ctor
    rw [hg] at hl
    simpa using hl
  subst hk
  constructor
  · rw [hg]
    apply List.map_congr_left
    intro i hi
    show (0 + i) % uint64Mod = i % uint64Mod
    rw [Nat.zero_add]
  · rw [hc, Nat.zero_add, Nat.add_mod_left]
    exact Nat.mod_eq_of_lt (by omega)

/-! The claims. -/

/-- Claim C1, counterexample: the generation numbers handed to the sends
are NOT strictly increasing for every single-threaded sequence of
flush-triggering writes — after 2^64 sends the uint64 counter wraps, so
the run of 2^64 + 1 acknowledged sync flushes from a fresh ostream hands
out generation 2^64 - 1 followed by generation 0. -/
theorem generations_increasing_wrap_refuted :
    ¬ List.Pairwise (· < ·)
        (sentGens (run (flushOnly (uint64Mod + 1)) ostream_ctor).2) := by
  intro hp
  obtain ⟨hg, -⟩ := flushOnly_wrap_gens
  rw [hg] at hp
  have hW : 2 ≤ uint64Mod := Nat.le_self_pow (by omega) 2
  have hi1 : uint64Mod - 1 < ((List.range (uint64Mod + 1)).map
      (fun i => i % uint64Mod)).length := by simp; omega
  have hi2 : uint64Mod < ((List.range (uint64Mod + 1)).map
      (fun i => i % uint64Mod)).length := by simp
  have hlt := List.pairwise_iff_getElem.mp hp (uint64Mod - 1) uint64Mod hi1
    hi2 (by omega)
  rw [List.getElem_map, List.getElem_map, List.getElem_range,
    List.getElem_range, Nat.mod_self, Nat.mod_eq_of_lt (by omega)] at hlt
  exact Nat.not_lt_zero _ hlt

/-- Claim C1 (amended): for any sequence of flush-triggering writes issued
from a single thread on one ostream, as long as the uint64 generation
counter does not wrap during the sequence (counter value plus number of
sends at most 2^64), the generation numbers handed to the remote send
operations are strictly increasing and match the order in which the
flushes were issued; with more sends the counter wraps modulo 2^64 and
generation numbers repeat. -/
theorem generations_strictly_increasing (ops : List Op) (st : OStream)
    (h1 : st.generational_count_ < uint64Mod)
    (h2 : st.generational_count_ + (sentGens (run ops st).2).length ≤
      uint64Mod) :
    sentGens (run ops st).2 =
      List.range' st.generational_count_
        (sentGens (run ops st).2).length ∧
    List.Pairwise (· < ·) (sentGens (run ops st).2) := by
  obtain ⟨k, hg, -, -⟩ := run_gens ops st h1
  have hlen : (sentGens (run ops st).2).length = k := by simp [hg]
  rw [hlen] at h2 ⊢
  have hmap : (List.range k).map
      (fun i => (st.generational_count_ + i) % uint64Mod) =
      List.range' st.generational_count_ k := by
    rw [List.range'_eq_map_range]
    apply List.map_congr_left
    intro i hi
    rw [List.mem_range] at hi
    exact Nat.mod_eq_of_lt (by omega)
  rw [hg, hmap]
  exact ⟨rfl, List.pairwise_lt_range' _ _⟩

/-- Witness for the amended C1 at a concrete operation sequence. -/
theorem generations_strictly_increasing_witness :
    sentGens (run demoOps ostream_ctor).2 =
      List.range' ostream_ctor.generational_count_
        (sentGens (run demoOps ostream_ctor).2).length ∧
    List.Pairwise (· < ·) (sentGens (run demoOps ostream_ctor).2) :=
  generations_strictly_increasing demoOps ostream_ctor (by decide)
    (by decide)

/-- Claim C2, counterexample: in the async-flush dispatch path on a
non-empty buffer, the generation number is NOT obtained before the lock is
released — at the concrete one-byte stream, the unlock event sits at index
3 of the trace and the generation is obtained at index 4. -/
theorem async_gen_obtained_before_unlock_refuted :
    (op_insert_async_flush exampleStream).trace.findIdx isUnlock = 3 ∧
    (op_insert_async_flush exampleStream).trace.findIdx isGenObtained = 4 ∧
    ¬ ((op_insert_async_flush exampleStream).trace.findIdx isGenObtained <
        (op_insert_async_flush exampleStream).trace.findIdx isUnlock) := by
  decide

/-- Claim C2 (amended): in the async-flush dispatch path, when the buffer
is non-empty after the marker's textual effect is appended, the order of
steps is: append marker effect, detach buffer, release lock, obtain next
generation, issue the asynchronous send — the generation number is read
after the unlock, not before. -/
theorem async_flush_dispatch_order (e : Bytes) (st : OStream)
    (h : (st.buffer ++ e).isEmpty = false) :
    (streaming_operator_async e st).events =
      [Event.appendData e, Event.detach (st.buffer ++ e), Event.unlock,
       Event.genObtained st.generational_count_,
       Event.sendAsync st.generational_count_ (st.buffer ++ e)] ∧
    (streaming_operator_async e st).state =
      { buffer := [],
        generational_count_ :=
          (st.generational_count_ + 1) % uint64Mod } := by
  simp [streaming_operator_async, buffer_write, empty_locked, init_locked, h]

/-- Witness for the amended C2 at a concrete input. -/
theorem async_flush_dispatch_order_witness :
    (streaming_operator_async ['y'] ostream_ctor).events =
      [Event.appendData ['y'], Event.detach (ostream_ctor.buffer ++ ['y']),
       Event.unlock, Event.genObtained ostream_ctor.generational_count_,
       Event.sendAsync ostream_ctor.generational_count_
         (ostream_ctor.buffer ++ ['y'])] ∧
    (streaming_operator_async ['y'] ostream_ctor).state =
      { buffer := [],
        generational_count_ :=
          (ostream_ctor.generational_count_ + 1) % uint64Mod } :=
  async_flush_dispatch_order ['y'] ostream_ctor (by decide)

/-- Claim C3: an async-flush on an empty buffer performs no remote send at
all (and leaves the state unchanged), while a sync-flush on an empty buffer
still performs exactly one remote send with an empty payload and still
blocks until its resolution (the blocking send's resolution is the last
event before the operation returns). -/
theorem empty_buffer_flush_dichotomy (outcome : SendOutcome) (st : OStream)
    (h : st.buffer = []) :
    (op_insert_async_flush st).trace.filter isSendEvent = [] ∧
    (op_insert_async_flush st).state = st ∧
    (op_insert_flush outcome st).trace.filter isSendEvent =
      [Event.sendSyncBegin st.generational_count_ []] ∧
    (op_insert_flush outcome st).trace.getLast? =
      some (syncResolution outcome) := by
  obtain ⟨buf, g⟩ := st
  have hb : buf = [] := h
  subst hb
  cases outcome <;>
    simp [op_insert_async_flush, op_insert_flush, wrapLocked,
      streaming_operator_async, streaming_operator_sync, buffer_write,
      init_locked, empty_locked, flush_effect, async_flush_effect, h,
      isSendEvent, sendGen, syncResolution]

/-- Witness for C3 at a concrete input. -/
theorem empty_buffer_flush_dichotomy_witness :
    (op_insert_async_flush ostream_ctor).trace.filter isSendEvent = [] ∧
    (op_insert_async_flush ostream_ctor).state = ostream_ctor ∧
    (op_insert_flush SendOutcome.ack ostream_ctor).trace.filter isSendEvent =
      [Event.sendSyncBegin ostream_ctor.generational_count_ []] ∧
    (op_insert_flush SendOutcome.ack ostream_ctor).trace.getLast? =
      some (syncResolution SendOutcome.ack) :=
  empty_buffer_flush_dichotomy SendOutcome.ack ostream_ctor rfl

/-- Claim C4, counterexample: with the lock available but the final
synchronous flush failing in transport, uninitialize does NOT release the
remote handle nor free the client (the failure of the blocking `.get()`
propagates out of uninitialize before `release_ostream`/`free` run) — so
"the remote handle is released and the client state freed exactly once
whether or not the lock was acquired" is false at this input. -/
theorem uninitialize_release_skipped_on_transport_failure :
    ( uninitialize true SendOutcome.transportError ostream_ctor).trace.count
        Event.releaseHandle = 0 ∧
    ( uninitialize true SendOutcome.transportError ostream_ctor).trace.count
        Event.freeClient = 0 ∧
    ( uninitialize true SendOutcome.transportError ostream_ctor).result =
      SendOutcome.transportError := by
  decide

/-- Claim C4 (amended): if no other thread holds the lock, uninitialize
performs a synchronous flush that delivers all bytes buffered at that point
before the remote handle is released; when that flush resolves successfully
— and always when the lock could not be acquired — the remote handle is
released and the client freed exactly once; a transport failure of the
teardown flush propagates out of uninitialize and the release does not
happen. -/
theorem uninitialize_teardown (outcome : SendOutcome) (st : OStream) :
    ( uninitialize true SendOutcome.ack st).trace =
      [Event.tryLockAcquired, Event.appendData [], Event.detach st.buffer,
       Event.unlock, Event.genObtained st.generational_count_,
       Event.sendSyncBegin st.generational_count_ st.buffer,
       Event.sendSyncAck, Event.releaseHandle, Event.freeClient] ∧
    ( uninitialize false outcome st).trace =
      [Event.tryLockFailed, Event.releaseHandle, Event.freeClient] ∧
    ( uninitialize true SendOutcome.ack st).trace.count
      Event.releaseHandle = 1 ∧
    ( uninitialize true SendOutcome.ack st).trace.count Event.freeClient = 1 ∧
    ( uninitialize false outcome st).trace.count Event.releaseHandle = 1 ∧
    ( uninitialize false outcome st).trace.count Event.freeClient = 1 ∧
    ( uninitialize true SendOutcome.transportError st).trace.count
      Event.releaseHandle = 0 := by
  cases outcome <;>
    simp [ uninitialize, streaming_operator_sync, buffer_write, init_locked,
      async_flush_effect, List.count_cons]

/-- Claim C5: a sync-flush (flush or endl manipulator) blocks the caller
until the remote sink's resolution arrives (the trace of the operation ends
with the resolution of the blocking send), and a transport failure on this
synchronous send is surfaced to the caller as a failed operation: the
operation's result equals the send's outcome and is a success only when the
acknowledgment arrived. -/
theorem sync_flush_blocks_and_surfaces_failure (outcome : SendOutcome)
    (st : OStream) :
    (op_insert_flush outcome st).trace =
      [Event.lock, Event.appendData flush_effect, Event.detach st.buffer,
       Event.unlock, Event.genObtained st.generational_count_,
       Event.sendSyncBegin st.generational_count_ st.buffer,
       syncResolution outcome] ∧
    (op_insert_endl outcome st).trace =
      [Event.lock, Event.appendData endl_effect,
       Event.detach (st.buffer ++ endl_effect), Event.unlock,
       Event.genObtained st.generational_count_,
       Event.sendSyncBegin st.generational_count_ (st.buffer ++ endl_effect),
       syncResolution outcome] ∧
    (op_insert_flush outcome st).result = outcome ∧
    (op_insert_endl outcome st).result = outcome ∧
    ((op_insert_flush outcome st).result = SendOutcome.ack ↔
      outcome = SendOutcome.ack) := by
  cases outcome <;>
    simp [op_insert_flush, op_insert_endl, wrapLocked,
      streaming_operator_sync, buffer_write, init_locked, flush_effect,
      endl_effect, syncResolution]

/-- Claim C6, counterexample: the mutex is NOT always fully released
before a send is initiated — streaming std::flush through the manipulator
pass-through while one byte is buffered re-enters ostream::flush under the
outer operator<< hold of the recursive mutex, and the fire-and-forget send
is issued at lock depth one, not zero. -/
theorem lock_held_across_reentrant_send_refuted :
    sendsOutsideLock 0 (run [Op.insertStdFlush] exampleStream).2 =
      false := by
  decide

/-- Claim C6 (amended): every execution path that issues a network send
releases its own acquisition of the recursive mutex before the send is
initiated: on the non-reentrant paths (plain writes, the async and sync
flush manipulators, a directly invoked buffer_sink flush, and a
non-flushing pass-through manipulator) every send happens with the mutex
fully released (lock depth zero), and along arbitrary operation sequences
every send happens at lock depth at most one — the one remaining hold
being that of the outer operator<< when the buffer_sink-triggered flush is
reached re-entrantly through the std::flush pass-through, which the inner
flush cannot release. -/
theorem lock_released_before_every_send (ops : List Op) (st : OStream)
    (s : Bytes) (outcome : SendOutcome) :
    sendsAtDepthLe 1 0 (run ops st).2 = true ∧
    sendsAtDepthLe 1 1 (buffer_sink_flush st).trace = true ∧
    sendsOutsideLock 0 (op_insert_value s st).trace = true ∧
    sendsOutsideLock 0 (op_insert_flush outcome st).trace = true ∧
    sendsOutsideLock 0 (op_insert_endl outcome st).trace = true ∧
    sendsOutsideLock 0 (op_insert_async_flush st).trace = true ∧
    sendsOutsideLock 0 (op_insert_async_endl st).trace = true ∧
    sendsOutsideLock 0 (buffer_sink_flush st).trace = true ∧
    sendsOutsideLock 0 (op_insert_manip_data s st).trace = true := by
  refine ⟨(run_locks ops st).1, ?_, ?_, ?_, ?_, ?_, ?_, ?_, ?_⟩
  · simp only [buffer_sink_flush, ostream_flush]
    split <;>
      simp [sendsAtDepthLe, isSendEvent, sendGen, init_locked]
  · simp [op_insert_value, wrapLocked, streaming_operator_lazy,
      sendsOutsideLock, isSendEvent, sendGen]
  · cases outcome <;>
      simp [op_insert_flush, wrapLocked, streaming_operator_sync,
        sendsOutsideLock, isSendEvent, sendGen, init_locked, buffer_write]
  · cases outcome <;>
      simp [op_insert_endl, wrapLocked, streaming_operator_sync,
        sendsOutsideLock, isSendEvent, sendGen, init_locked, buffer_write]
  · simp only [op_insert_async_flush, wrapLocked, streaming_operator_async]
    split <;>
      simp [sendsOutsideLock, isSendEvent, sendGen, init_locked,
        buffer_write]
  · simp only [op_insert_async_endl, wrapLocked, streaming_operator_async]
    split <;>
      simp [sendsOutsideLock, isSendEvent, sendGen, init_locked,
        buffer_write]
  · simp only [buffer_sink_flush, ostream_flush]
    split <;>
      simp [sendsOutsideLock, isSendEvent, sendGen, init_locked]
  · simp [op_insert_manip_data, op_insert_manip, sendsOutsideLock,
      isSendEvent, sendGen]

/-- Claim C7: a plain-value write appends the formatted value to the local
buffer under the lock and performs no network activity: the generation
counter is not incremented and no remote send is initiated. -/
theorem plain_write_local_only (s : Bytes) (st : OStream) :
    (op_insert_value s st).trace =
      [Event.lock, Event.appendData s, Event.unlock] ∧
    (op_insert_value s st).state.buffer = st.buffer ++ s ∧
    (op_insert_value s st).state.generational_count_ =
      st.generational_count_ ∧
    (op_insert_value s st).trace.filter isSendEvent = [] := by
  refine ⟨rfl, rfl, rfl, ?_⟩
  simp [op_insert_value, wrapLocked, streaming_operator_lazy, isSendEvent,
    sendGen]

/-- Claim C8: writing a standard-stream manipulator through the
pass-through overload applies it directly to the local buffering layer,
serialized by the lock (the dispatch trace is exactly lock, then the
manipulator's own events, then unlock), and the dispatch path itself
triggers no flush and no remote send: every send event of the dispatch
trace is an event of the manipulator itself. -/
theorem manip_passthrough_adds_no_send
    (f : OStream → OStream × List Event) (st : OStream) :
    (op_insert_manip f st).trace =
      Event.lock :: ((f st).2 ++ [Event.unlock]) ∧
    (op_insert_manip f st).state = (f st).1 ∧
    (op_insert_manip f st).trace.filter isSendEvent =
      (f st).2.filter isSendEvent := by
  refine ⟨rfl, rfl, ?_⟩
  simp [op_insert_manip, isSendEvent, sendGen]

/-- Claim C9: if uninitialize fails to acquire the lock, no flush is
performed (the trace holds no send event) yet the remote handle is still
released and the client freed, and the buffer is left unmodified (the whole
state is unchanged), so the buffered bytes are never transmitted by this
ostream. -/
theorem uninitialize_lock_unavailable (outcome : SendOutcome)
    (st : OStream) :
    ( uninitialize false outcome st).trace =
      [Event.tryLockFailed, Event.releaseHandle, Event.freeClient] ∧
    ( uninitialize false outcome st).state = st ∧
    ( uninitialize false outcome st).trace.filter isSendEvent = [] := by
  exact ⟨rfl, rfl, rfl⟩

/-- Claim C10, counterexample: the transmitted generation numbers are NOT
exactly 0, 1, 2, ... for every operation sequence of one ostream's
lifetime — after the run of 2^64 + 1 acknowledged sync flushes from a
fresh ostream, the wrapped uint64 counter holds 1, not the number of sends
2^64 + 1, so the final counter differs from the number of sends (and the
generation sequence repeats 0 after 2^64 - 1). -/
theorem generation_contiguity_wrap_refuted :
    ¬ ((run (flushOnly (uint64Mod + 1)) ostream_ctor).1.generational_count_
        = (sentGens
            (run (flushOnly (uint64Mod + 1)) ostream_ctor).2).length) := by
  intro hfin
  obtain ⟨-, hc⟩ := flushOnly_wrap_gens
  have hlen := flushOnly_sends (uint64Mod + 1) ostream_ctor
  rw [hc, hlen] at hfin
  have hW : 2 ≤ uint64Mod := Nat.le_self_pow (by omega) 2
  omega

/-- Claim C10 (amended): the generation counter of a freshly constructed
ostream is 0 and is incremented (modulo 2^64) exactly once per remote send
actually issued, so as long as fewer than 2^64 sends are issued the
generation numbers attached to transmitted batches are exactly
0, 1, 2, ... with no gaps and the final counter value equals the number of
sends; from 2^64 sends on the counter wraps and generation numbers
repeat. -/
theorem generation_counter_contiguous_from_zero (ops : List Op)
    (h : (sentGens (run ops ostream_ctor).2).length < uint64Mod) :
    ostream_ctor.generational_count_ = 0 ∧
    sentGens (run ops ostream_ctor).2 =
      List.range (sentGens (run ops ostream_ctor).2).length ∧
    (run ops ostream_ctor).1.generational_count_ =
      (sentGens (run ops ostream_ctor).2).length := by
  have h1 : ostream_ctor.generational_count_ < uint64Mod := by
    show (0:Nat) < uint64Mod
    have hW : 2 ≤ uint64Mod := Nat.le_self_pow (by omega) 2
    omega
  obtain ⟨k, hg, hc, -⟩ := run_gens ops ostream_ctor h1
  have h0 : ostream_ctor.generational_count_ = 0 := rfl
  rw [h0] at hg hc
  have hlen : (sentGens (run ops ostream_ctor).2).length = k := by
    simp [hg]
  rw [hlen] at h ⊢
  have hmap : (List.range k).map (fun i => (0 + i) % uint64Mod) =
      List.range k := by
    conv_rhs => rw [← List.map_id (List.range k)]
    apply List.map_congr_left
    intro i hi
    rw [List.mem_range] at hi
    show (0 + i) % uint64Mod = i
    rw [Nat.zero_add]
    exact Nat.mod_eq_of_lt (by omega)
  refine ⟨rfl, ?_, ?_⟩
  · rw [hg, hmap]
  · rw [hc, Nat.zero_add]
    exact Nat.mod_eq_of_lt h

/-- Witness for the amended C10 at a concrete operation sequence. -/
theorem generation_counter_contiguous_witness :
    ostream_ctor.generational_count_ = 0 ∧
    sentGens (run demoOps ostream_ctor).2 =
      List.range (sentGens (run demoOps ostream_ctor).2).length ∧
    (run demoOps ostream_ctor).1.generational_count_ =
      (sentGens (run demoOps ostream_ctor).2).length :=
  generation_counter_contiguous_from_zero demoOps (by decide)

end HpxOstream
